import Mathlib

/-!
Shallow embedding of the pattern-mixing core of `super_metroid_infinite.py`
(Super Metroid techno generator): MIDI pattern categorization
(`MIDIPatternAnalyzer.categorize_pattern`), the section state machine
(`PatternMixer.change_section`), the pydub-style mix buffer, the per-bar
sequencer (`PatternMixer.generate_bar`), pattern randomization
(`PatternMixer.randomize_patterns`), and the bounded producer/consumer queue
of `InfiniteGenerator`.

Modelling conventions:
* Buffers are modelled at millisecond resolution (pydub measures `len()` and
  every overlay position in this program in milliseconds); amplitudes are
  integers.
* Python floats are modelled by exact rationals.  Every duration in the
  program has the form `60000 / bpm * k`; the only conversions are
  `int(...)` truncations of positive values, modelled by `Int.floor`.  For
  the concrete tempos appearing in theorems below (128 and 127) the float
  computation `int(60000 / bpm * 4)` agrees with `⌊240000 / bpm⌋` because
  `60000 / bpm` rounds once and the subsequent `* 4` is exact.
* The global `random` module is modelled by a record of independent draws,
  one field per call site (per-loop-step sites take the loop index).
* The synthesizer voices of `track02.py` render opaque clips; they (and the
  transcendental `midi_to_freq` and pydub's `normalize` peak ratio) are
  abstracted as an environment record, and theorems quantify over every
  environment.
-/

namespace SMInfinite

/-- A `note_on` event collected by `MIDIPatternAnalyzer.analyze_all_midis`:
note number, velocity, absolute time in ticks. -/
structure NoteEvent where
  note : Nat
  velocity : Nat
  time : Nat
deriving DecidableEq, Repr

/-- The pattern dict built in `MIDIPatternAnalyzer.categorize_pattern`. -/
structure Pattern where
  notes : List Nat
  velocities : List Nat
  source : String
  track : String
  bpm : ℚ
  avg_note : ℚ
deriving DecidableEq, Repr

/-- The five keys of `MIDIPatternAnalyzer.patterns`. -/
inductive Category where
  | bass
  | melody
  | pads
  | arpeggios
  | percussion
deriving DecidableEq, Repr

/-- `sum(n['note'] for n in notes) / len(notes)`. -/
def avg_note (notes : List NoteEvent) : ℚ :=
  (notes.map (fun n => (n.note : ℚ))).sum / notes.length

/-- Python `max` of a list of naturals (the empty case is unreachable in
`categorize_pattern`, which returns early on empty input). -/
def natMax (l : List Nat) : Nat := l.foldl max 0

/-- Python `min` of a list of naturals (empty case unreachable, see `natMax`). -/
def natMin (l : List Nat) : Nat :=
  match l with
  | [] => 0
  | h :: t => t.foldl min h

/-- `max(n['note'] ...) - min(n['note'] ...)`. -/
def note_range (notes : List NoteEvent) : Nat :=
  natMax (notes.map (fun n => n.note)) - natMin (notes.map (fun n => n.note))

/-- `len(notes) / (notes[-1]['time'] + 1)`. -/
def note_density (notes : List NoteEvent) : ℚ :=
  (notes.length : ℚ) / (((notes.getLast?.map (fun n => n.time)).getD 0 : ℚ) + 1)

/-- The dict literal of `categorize_pattern` (lines 96-103): the stored note
and velocity lists keep only the first 32 events (`notes[:32]`), while
`avg_note` is the average over ALL events of the track. -/
def mkPattern (notes : List NoteEvent) (source track : String) (bpm : ℚ) : Pattern :=
  { notes := (notes.take 32).map (fun n => n.note)
    velocities := (notes.take 32).map (fun n => n.velocity)
    source := source
    track := track
    bpm := bpm
    avg_note := avg_note notes }

/-- `MIDIPatternAnalyzer.categorize_pattern` (lines 87-115): returns which
category list the pattern is appended to, or `none` for empty input
(Python returns early).  Both the `avg_note > 60` branch and the final
`else` append to `melody`. -/
def categorize_pattern (notes : List NoteEvent) (source track : String) (bpm : ℚ) :
    Option (Category × Pattern) :=
  if notes = [] then none
  else
    let p := mkPattern notes source track bpm
    if avg_note notes < 45 then some (Category.bass, p)
    else if note_density notes > 5 then some (Category.arpeggios, p)
    else if note_range notes < 12 ∧ note_density notes < 2 then some (Category.pads, p)
    else if avg_note notes > 60 then some (Category.melody, p)
    else some (Category.melody, p)

/-- The four musical sections. -/
inductive MusicSection where
  | intro
  | verse
  | chorus
  | breakdown
deriving DecidableEq, Repr, BEq

/-- The list `['verse', 'chorus', 'verse', 'chorus', 'breakdown', 'chorus']`
of `PatternMixer.change_section` (line 186). -/
def sectionOrder : List MusicSection :=
  [MusicSection.verse, MusicSection.chorus, MusicSection.verse,
   MusicSection.chorus, MusicSection.breakdown, MusicSection.chorus]

/-- Lines 187-188: `section_idx = sections.index(self.current_section) if
self.current_section in sections else 0` followed by
`sections[(section_idx + 1) % len(sections)]`.  Python `list.index` returns
the index of the FIRST occurrence. -/
def nextSectionAuto (cur : MusicSection) : MusicSection :=
  let idx := if sectionOrder.contains cur then sectionOrder.indexOf cur else 0
  sectionOrder.getD ((idx + 1) % sectionOrder.length) MusicSection.verse

/-- `self.bass_effect` choices (line 198): `[None, 'distortion', 'delay', 'filter']`. -/
inductive BassEffect where
  | distortion
  | delay
  | filter
deriving DecidableEq, Repr

/-- `self.melody_effect` choices (line 213): `[None, 'reverb', 'delay']`. -/
inductive MelodyEffect where
  | reverb
  | delay
deriving DecidableEq, Repr

/-- The mutable fields `PatternMixer.__init__` (lines 160-178) installs on
`self` (the immutable configuration `bpm`, `beat_duration`, `bar_duration`
and the pattern library are passed separately to the functions below). -/
structure MixerState where
  active_bass : Option Pattern
  active_melody : Option Pattern
  active_pad : Option Pattern
  active_arp : Option Pattern
  active_lead : Option Pattern
  bass_effect : Option BassEffect
  melody_effect : Option MelodyEffect
  bass_pattern_index : Nat
  bass_variation_counter : Nat
  current_section : MusicSection
  section_bar_counter : Nat
deriving DecidableEq, Repr

/-- The initial values set by `PatternMixer.__init__`. -/
def initialMixerState : MixerState :=
  { active_bass := none
    active_melody := none
    active_pad := none
    active_arp := none
    active_lead := none
    bass_effect := none
    melody_effect := none
    bass_pattern_index := 0
    bass_variation_counter := 0
    current_section := MusicSection.intro
    section_bar_counter := 0 }

/-- `PatternMixer.change_section` (lines 180-191). -/
def change_section (st : MixerState) (new_section : Option MusicSection) : MixerState :=
  match new_section with
  | some s => { st with current_section := s, section_bar_counter := 0 }
  | none =>
      { st with current_section := nextSectionAuto st.current_section
                section_bar_counter := 0 }

/-- The mixer state after `n` no-argument `change_section()` calls starting
from the freshly constructed mixer (whose section is `intro`). -/
def autoSections (n : Nat) : MixerState :=
  (fun st => change_section st none)^[n] initialMixerState

/-- `AudioSegment.silent(duration)`: `duration` milliseconds of zero samples. -/
def silent (duration : Nat) : List Int := List.replicate duration 0

/-- Modelled from the spec: `overlay(base, clip, position_ms)` (pydub's
`AudioSegment.overlay`, external to `src/`) additively mixes `clip`'s
samples into `base` starting at `position_ms`, truncating any portion of
`clip` that extends past `base`'s end, leaving `base` unchanged before the
position and after the clip ends; negative positions are treated as 0.
The result always has `base`'s length. -/
def overlay (base clip : List Int) (position : Int) : List Int :=
  base.mapIdx fun i s =>
    if position.toNat ≤ i ∧ i < position.toNat + clip.length then
      s + clip.getD (i - position.toNat) 0
    else s

/-- Modelled from the spec: pydub's `+` / `-` gain operators (external to
`src/`), read with the spec's linear-subtraction "dB" convention
(`gain_adjust(buffer, db_like_offset)`): a constant rational offset applied
to every sample, truncated back to an integer amplitude. -/
def gain_adjust (b : List Int) (offset : ℚ) : List Int :=
  b.map fun (s : Int) => Int.floor ((s : ℚ) + offset)

/-- Modelled from the spec: pydub's `normalize(headroom)` (external to
`src/`) rescales every sample so the peak sits `headroom` dB below full
scale; the (transcendental) per-buffer ratio is passed in by the caller via
`SynthEnv.norm_ratio` below.  Only length preservation matters here. -/
def normalize (scale : ℚ) (b : List Int) : List Int :=
  b.map fun (s : Int) => Int.floor ((s : ℚ) * scale)

/-- The opaque synthesis environment: the `Synthesizer` / `DrumMachine`
voices of `track02.py`, `midi_to_freq` (`440 * 2 ** ((n - 69) / 12)`,
transcendental), and pydub's normalization peak ratio.  Every voice renders
an opaque clip; the theorems below quantify over all environments. -/
structure SynthEnv where
  midi_to_freq : Int → ℚ
  kick : ℚ → List Int
  snare : List Int
  hihat : Bool → List Int
  deep_bass : ℚ → ℚ → Nat → List Int
  brass_lead : ℚ → ℚ → Nat → List Int
  xylophone : ℚ → ℚ → List Int
  acid_bass : ℚ → ℚ → List Int
  creepy_pad : ℚ → ℚ → List Int
  norm_ratio : List Int → ℚ → ℚ

/-- The draws `generate_bar` takes from Python's global `random` module, one
field per call site; sites inside loops receive the loop index, so distinct
steps use independent draws.  `random.random()` draws are rationals in
`[0, 1)`; `random.choice` / `random.uniform` draws are modelled by an index
(reduced modulo the option-list length at use) resp. a rational offset. -/
structure Rng where
  kick_punch : Nat → ℚ
  hihat_skip : Nat → ℚ
  lead_skip : Nat → ℚ
  melody_gate : ℚ
  melody_steps : Nat
  melody_skip : Nat → ℚ
  melody_voice : Nat → Nat
  arp_gate : ℚ
  arp_skip : Nat → ℚ

/-- `self.beat_duration = 60000 / bpm` (line 158). -/
def beat_duration (bpm : ℚ) : ℚ := 60000 / bpm

/-- `self.bar_duration = self.beat_duration * 4` (line 159). -/
def bar_duration (bpm : ℚ) : ℚ := beat_duration bpm * 4

/-- `int(self.bar_duration)` (line 222): the length in ms of the silent
buffer each bar starts from; Python `int()` truncates toward zero. -/
def bar_duration_ms (bpm : ℚ) : Nat := (Int.floor (bar_duration bpm)).toNat

/-- The length in ms the spec claims for every bar: `round(60000/BPM*4)`. -/
def spec_bar_len_ms (bpm : ℚ) : ℤ := round (bar_duration bpm)

/-- `AudioEffects.delay` (lines 122-126): a single-tap delay; the source's
`feedback` parameter is accepted but unused. -/
def delay_effect (audio : List Int) (delay_ms : Int) (mix : ℚ) : List Int :=
  overlay audio (gain_adjust audio (-(1000 * mix))) delay_ms

/-- The delay offsets of `AudioEffects.reverb` (line 132). -/
def reverbDelays : List Int := [50, 80, 120, 180, 250]

/-- `AudioEffects.reverb` (lines 129-136): five decaying delayed copies of
the input overlaid into the accumulating result. -/
def reverb (audio : List Int) (mix : ℚ) : List Int :=
  reverbDelays.enum.foldl
    (fun result id2 =>
      overlay result (gain_adjust audio (-(mix * (4/5) ^ id2.1 * 30 * 1000))) id2.2)
    audio

/-- `AudioEffects.filter_lowpass` (lines 139-142): `audio - (1 - cutoff) * 10`. -/
def filter_lowpass (audio : List Int) (cutoff : ℚ) : List Int :=
  gain_adjust audio (-((1 - cutoff) * 10))

/-- `AudioEffects.distortion` (lines 145-147):
`(audio + (gain - 1) * 6).normalize(headroom=2.0)`. -/
def distortion (env : SynthEnv) (audio : List Int) (gain : ℚ) : List Int :=
  let boosted := gain_adjust audio ((gain - 1) * 6)
  normalize (env.norm_ratio boosted 2) boosted

/-- Kick placements of `generate_bar` (lines 236-240): four on the floor,
punch `(1.5 if chorus else 1.2) + random.uniform(-0.1, 0.2)`, gain
`3 if chorus else 2`, at `int(beat * beat_duration)`. -/
def kickPlacements (env : SynthEnv) (bpm : ℚ) (sec : MusicSection) (r : Rng) :
    List (List Int × Int) :=
  (List.range 4).map fun beat =>
    let punch := (if sec = MusicSection.chorus then (3 : ℚ)/2 else 6/5) + r.kick_punch beat
    let gain : ℚ := if sec = MusicSection.chorus then 3 else 2
    (gain_adjust (env.kick punch) gain, Int.floor ((beat : ℚ) * beat_duration bpm))

/-- Snare placements (lines 243-245): beats 2 and 4 (indices 1 and 3). -/
def snarePlacements (env : SynthEnv) (bpm : ℚ) (sec : MusicSection) :
    List (List Int × Int) :=
  ([1, 3] : List Nat).map fun snare_beat =>
    (gain_adjust env.snare (if sec = MusicSection.chorus then 1 else 0),
      Int.floor ((snare_beat : ℚ) * beat_duration bpm))

/-- Line 249: the per-step skip decision — a hi-hat is placed at 16th-note
step `s` iff that step's own draw satisfies `random.random() > 0.1`. -/
def hihat_placed (r : Rng) (s : Nat) : Bool := r.hihat_skip s > 1/10

/-- Line 251: `closed = not (sixteenth % 4 == 3)` — a fixed function of the
step index, independent of the random source. -/
def hihat_closed (s : Nat) : Bool := ! (s % 4 == 3)

/-- Hi-hat placements (lines 248-252): 16th-note grid, per-step skip draw,
open/closed per `hihat_closed`, gain `-2`, at `int(s * beat_duration / 4)`. -/
def hihatPlacements (env : SynthEnv) (bpm : ℚ) (r : Rng) : List (List Int × Int) :=
  (List.range 16).filterMap fun s =>
    if hihat_placed r s then
      some (gain_adjust (env.hihat (hihat_closed s)) (-2),
        Int.floor ((s : ℚ) * beat_duration bpm / 4))
    else none

/-- The full drum layer (lines 231-252), skipped entirely when
`is_breakdown and bar_num % 4 < 2` (line 234).  (`drum_intensity`, line 232,
is computed by the source but never used.) -/
def drumPlacements (env : SynthEnv) (bpm : ℚ) (sec : MusicSection) (bar_num : Nat)
    (r : Rng) : List (List Int × Int) :=
  if sec = MusicSection.breakdown ∧ bar_num % 4 < 2 then []
  else
    kickPlacements env bpm sec r ++ snarePlacements env bpm sec ++ hihatPlacements env bpm r

/-- Line 259: `variation_offset = (bar_num // 4) % 4`. -/
def variation_offset (bar_num : Nat) : Nat := (bar_num / 4) % 4

/-- Line 263: `note_idx = (bar_num * 4 + beat + variation_offset) % len(bass_notes)`. -/
def bass_note_idx (bar_num beat L : Nat) : Nat :=
  (bar_num * 4 + beat + variation_offset bar_num) % L

/-- The four bass notes `generate_bar` selects for bar `bar_num` from the
active bass pattern (lines 261-264), in beat order. -/
def bassSelectedNotes (p : Pattern) (bar_num : Nat) : List Nat :=
  (List.range 4).map fun beat =>
    p.notes.getD (bass_note_idx bar_num beat p.notes.length) 0

/-- One bass clip (lines 269-277): `deep_bass` at `beat_duration * 0.9`,
fatness 5, then the active bass effect. -/
def bassClip (env : SynthEnv) (bpm : ℚ) (eff : Option BassEffect) (note : Nat) :
    List Int :=
  let bass := env.deep_bass (env.midi_to_freq note) (beat_duration bpm * 9/10) 5
  match eff with
  | some BassEffect.distortion => distortion env bass (3/2)
  | some BassEffect.delay => delay_effect bass (Int.floor (beat_duration bpm / 2)) (1/5)
  | some BassEffect.filter => filter_lowpass bass (3/5)
  | none => bass

/-- The bass layer (lines 255-284): main clip at gain `-5` on every beat;
sub-octave `deep_bass` at gain `-8` on beats 0 and 2 during chorus. -/
def bassPlacements (env : SynthEnv) (bpm : ℚ) (st : MixerState) (bar_num : Nat) :
    List (List Int × Int) :=
  match st.active_bass with
  | none => []
  | some p =>
    (List.range 4).flatMap fun beat =>
      let note := (bassSelectedNotes p bar_num).getD beat 0
      let pos : Int := Int.floor ((beat : ℚ) * beat_duration bpm)
      let main := (gain_adjust (bassClip env bpm st.bass_effect note) (-5), pos)
      if (beat = 0 ∨ beat = 2) ∧ st.current_section = MusicSection.chorus then
        [main,
         (gain_adjust
            (env.deep_bass (env.midi_to_freq note / 2) (beat_duration bpm * 6/5) 3)
            (-8), pos)]
      else [main]

/-- One chorus lead clip (lines 295-311): octave-up `brass_lead`, thickened
with a 1% detuned second voice at `-2`, then the active melody effect. -/
def leadClip (env : SynthEnv) (bpm : ℚ) (eff : Option MelodyEffect) (note : Nat)
    (step_duration : ℚ) : List Int :=
  let freq := env.midi_to_freq (note + 12)
  let lead := env.brass_lead freq (step_duration * 4/5) 100
  let lead2 := env.brass_lead (freq * 101/100) (step_duration * 4/5) 90
  let thick := overlay lead (gain_adjust lead2 (-2)) 0
  match eff with
  | some MelodyEffect.reverb => reverb thick (3/10)
  | some MelodyEffect.delay => delay_effect thick (Int.floor (beat_duration bpm)) (1/4)
  | none => thick

/-- The chorus lead layer (lines 287-314): 8 steps, 85% note density
(per-step draw `> 0.15`), notes `(bar_num * 8 + step) % len`, gain `-4`. -/
def leadPlacements (env : SynthEnv) (bpm : ℚ) (st : MixerState) (bar_num : Nat)
    (r : Rng) : List (List Int × Int) :=
  if st.current_section = MusicSection.chorus then
    match st.active_lead with
    | none => []
    | some p =>
      (List.range 8).filterMap fun step =>
        if r.lead_skip step > 3/20 then
          let note := p.notes.getD ((bar_num * 8 + step) % p.notes.length) 0
          let step_duration := bar_duration bpm / 8
          some (gain_adjust (leadClip env bpm st.melody_effect note step_duration) (-4),
            Int.floor ((step : ℚ) * step_duration))
        else none
  else []

/-- `random.choice(['brass', 'xylo', 'acid', 'brass'])` (line 330). -/
inductive MelodyVoice where
  | brass
  | xylo
  | acid
deriving DecidableEq, Repr

/-- The voice option list of line 330 (brass listed twice in the source). -/
def melodyVoiceChoices : List MelodyVoice :=
  [MelodyVoice.brass, MelodyVoice.xylo, MelodyVoice.acid, MelodyVoice.brass]

/-- One supporting-melody clip (lines 329-341). -/
def melodyClip (env : SynthEnv) (bpm : ℚ) (eff : Option MelodyEffect)
    (voice : MelodyVoice) (note : Nat) (step_duration : ℚ) : List Int :=
  let freq := env.midi_to_freq note
  let m :=
    match voice with
    | MelodyVoice.brass => env.brass_lead freq (step_duration * 7/10) 85
    | MelodyVoice.xylo => env.xylophone freq (step_duration * 1/2)
    | MelodyVoice.acid => env.acid_bass freq (step_duration * 3/5)
  match eff with
  | some MelodyEffect.reverb => reverb m (1/4)
  | some MelodyEffect.delay => delay_effect m (Int.floor (beat_duration bpm)) (3/10)
  | none => m

/-- The supporting melody layer (lines 317-343): only outside chorus, gated
by a `> 0.3` draw, `random.choice([8, 16])` steps, per-step skip `> 0.4`,
random voice per note, gain `-9`. -/
def melodyPlacements (env : SynthEnv) (bpm : ℚ) (st : MixerState) (bar_num : Nat)
    (r : Rng) : List (List Int × Int) :=
  if st.current_section ≠ MusicSection.chorus ∧ r.melody_gate > 3/10 then
    match st.active_melody with
    | none => []
    | some p =>
      let num_steps := ([8, 16] : List Nat).getD (r.melody_steps % 2) 8
      (List.range num_steps).filterMap fun step =>
        if r.melody_skip step > 2/5 then
          let note := p.notes.getD ((bar_num * num_steps + step) % p.notes.length) 0
          let step_duration := bar_duration bpm / num_steps
          let voice := melodyVoiceChoices.getD (r.melody_voice step % 4) MelodyVoice.brass
          some (gain_adjust
              (melodyClip env bpm st.melody_effect voice note step_duration) (-9),
            Int.floor ((step : ℚ) * step_duration))
        else none
  else []

/-- The pad layer (lines 346-353): on even bars, the first four notes of the
active pad pattern as `creepy_pad` chords of DOUBLE bar length at position 0
(truncated by `overlay` to the bar), gain `-18` in chorus else `-22`. -/
def padPlacements (env : SynthEnv) (bpm : ℚ) (st : MixerState) (bar_num : Nat) :
    List (List Int × Int) :=
  if bar_num % 2 = 0 then
    match st.active_pad with
    | none => []
    | some p =>
      (p.notes.take 4).map fun pad_note =>
        let pad := env.creepy_pad (env.midi_to_freq pad_note) (bar_duration bpm * 2)
        (gain_adjust pad (-(if st.current_section = MusicSection.chorus
            then (18 : ℚ) else 22)), 0)
  else []

/-- The arpeggio layer (lines 356-366): gated by a `> 0.4` draw, 16th-note
grid with per-step skip `> 0.5`, octave-up xylophone, gain `-13`. -/
def arpPlacements (env : SynthEnv) (bpm : ℚ) (st : MixerState) (bar_num : Nat)
    (r : Rng) : List (List Int × Int) :=
  if r.arp_gate > 2/5 then
    match st.active_arp with
    | none => []
    | some p =>
      (List.range 16).filterMap fun s =>
        if r.arp_skip s > 1/2 then
          let note := p.notes.getD ((bar_num * 16 + s) % p.notes.length) 0
          let arp := env.xylophone (env.midi_to_freq (note + 12))
              (beat_duration bpm * 3/20)
          some (gain_adjust arp (-13), Int.floor ((s : ℚ) * beat_duration bpm / 4))
        else none
  else []

/-- Every clip `generate_bar` overlays into the bar, in source order:
drums, bass, chorus lead, supporting melody, pads, arpeggios. -/
def barPlacements (env : SynthEnv) (bpm : ℚ) (st : MixerState) (bar_num : Nat)
    (r : Rng) : List (List Int × Int) :=
  drumPlacements env bpm st.current_section bar_num r
    ++ bassPlacements env bpm st bar_num
    ++ leadPlacements env bpm st bar_num r
    ++ melodyPlacements env bpm st bar_num r
    ++ padPlacements env bpm st bar_num
    ++ arpPlacements env bpm st bar_num r

/-- `PatternMixer.generate_bar` (lines 220-368): a silent buffer of
`int(self.bar_duration)` ms, the clips of `barPlacements` overlaid into it
in order, and the method's single state mutation
`self.section_bar_counter += 1` (line 225). -/
def generate_bar (env : SynthEnv) (bpm : ℚ) (st : MixerState) (bar_num : Nat)
    (r : Rng) : List Int × MixerState :=
  ((barPlacements env bpm st bar_num r).foldl
      (fun bar cp => overlay bar cp.1 cp.2) (silent (bar_duration_ms bpm)),
    { st with section_bar_counter := st.section_bar_counter + 1 })

/-- `MIDIPatternAnalyzer.patterns`: the category-to-pattern-list mapping. -/
structure PatternLibrary where
  bass : List Pattern
  melody : List Pattern
  pads : List Pattern
  arpeggios : List Pattern
  percussion : List Pattern
deriving DecidableEq, Repr

/-- `random.choice(seq)`: a uniform index draw reduced modulo `len(seq)`;
`none` exactly on the empty sequence, where Python would raise.  Every call
site in `randomize_patterns` is guarded by a non-emptiness check. -/
def choiceAt (l : List α) (k : Nat) : Option α := l.get? (k % l.length)

/-- The index draws consumed by one `randomize_patterns` call. -/
structure ChoiceDraws where
  bass_pick : Nat
  bass_eff : Nat
  melody_pick : Nat
  lead_pick : Nat
  pad_pick : Nat
  arp_pick : Nat
  melody_eff : Nat

/-- Line 198: `[None, 'distortion', 'delay', 'filter']`. -/
def bassEffectChoices : List (Option BassEffect) :=
  [none, some BassEffect.distortion, some BassEffect.delay, some BassEffect.filter]

/-- Line 213: `[None, 'reverb', 'delay']`. -/
def melodyEffectChoices : List (Option MelodyEffect) :=
  [none, some MelodyEffect.reverb, some MelodyEffect.delay]

/-- `PatternMixer.randomize_patterns` (lines 193-218): every pattern choice
is guarded by a non-emptiness check on its category list; on an empty
category the corresponding active pattern is left untouched.
`melody_effect` is re-rolled unconditionally from a non-empty literal. -/
def randomize_patterns (lib : PatternLibrary) (st : MixerState) (change_bass : Bool)
    (r : ChoiceDraws) : MixerState :=
  let st1 :=
    if change_bass ∧ lib.bass ≠ [] then
      { st with active_bass := choiceAt lib.bass r.bass_pick
                bass_effect := bassEffectChoices.getD (r.bass_eff % 4) none }
    else st
  let st2 :=
    if lib.melody ≠ [] then
      { st1 with active_melody := choiceAt lib.melody r.melody_pick
                 active_lead := choiceAt lib.melody r.lead_pick }
    else st1
  let st3 :=
    if lib.pads ≠ [] then { st2 with active_pad := choiceAt lib.pads r.pad_pick } else st2
  let st4 :=
    if lib.arpeggios ≠ [] then
      { st3 with active_arp := choiceAt lib.arpeggios r.arp_pick }
    else st3
  { st4 with melody_effect := melodyEffectChoices.getD (r.melody_eff % 3) none }

/-- `queue.Queue(maxsize=8)` (line 550). -/
def queue_capacity : Nat := 8

/-- The producer/consumer state of `InfiniteGenerator`: the bar indices
currently buffered in `audio_queue` (oldest first), the producer's local
`bar_counter` of `_generate_audio_loop`, and the history of every index ever
successfully enqueued. -/
structure PipeState where
  buffered : List Nat
  bar_counter : Nat
  enqueued : List Nat
deriving DecidableEq, Repr

/-- The state at producer-thread start (`bar_counter = 0`, empty queue). -/
def initPipe : PipeState := { buffered := [], bar_counter := 0, enqueued := [] }

/-- One step of the streaming pipeline (lines 624-685 and the consumer in
`run`):
* `put_ok` — `audio_queue.put(..., timeout=1.0)` succeeds (queue below
  capacity); only then does the loop run `bar_counter += 1` (line 678);
* `put_full` — the put times out with `queue.Full`; the handler sleeps and
  the loop retries the SAME bar index (`bar_counter` unchanged, line 680-682);
* `take` — the consumer drains the oldest queued bar (line 826). -/
inductive PipeStep : PipeState → PipeState → Prop where
  | put_ok (s : PipeState) (h : s.buffered.length < queue_capacity) :
      PipeStep s
        { buffered := s.buffered ++ [s.bar_counter]
          bar_counter := s.bar_counter + 1
          enqueued := s.enqueued ++ [s.bar_counter] }
  | put_full (s : PipeState) (h : queue_capacity ≤ s.buffered.length) : PipeStep s s
  | take (s : PipeState) (i : Nat) (rest : List Nat) (h : s.buffered = i :: rest) :
      PipeStep s { buffered := rest, bar_counter := s.bar_counter, enqueued := s.enqueued }

/-- One producer loop iteration, executably: enqueue if there is room
(`put_ok`), otherwise retry later with the state unchanged (`put_full`). -/
def produceAttempt (s : PipeState) : PipeState :=
  if s.buffered.length < queue_capacity then
    { buffered := s.buffered ++ [s.bar_counter]
      bar_counter := s.bar_counter + 1
      enqueued := s.enqueued ++ [s.bar_counter] }
  else s

/-- One consumer drain, executably (identity on an empty queue, where the
consumer instead idles on `queue.Empty`). -/
def consumeOne (s : PipeState) : PipeState :=
  match s.buffered with
  | [] => s
  | _ :: rest => { buffered := rest, bar_counter := s.bar_counter, enqueued := s.enqueued }

/-- A trivial synthesis environment: every voice renders an empty clip. -/
def trivEnv : SynthEnv :=
  { midi_to_freq := fun _ => 0
    kick := fun _ => []
    snare := []
    hihat := fun _ => []
    deep_bass := fun _ _ _ => []
    brass_lead := fun _ _ _ => []
    xylophone := fun _ _ => []
    acid_bass := fun _ _ => []
    creepy_pad := fun _ _ => []
    norm_ratio := fun _ _ => 1 }

/-- An environment whose hi-hat clip makes the open/closed flag observable
in the rendered audio. -/
def obsEnv : SynthEnv :=
  { trivEnv with hihat := fun closed => [if closed then 100 else 0] }

/-- A random source all of whose `random.random()` draws equal `q` and all
of whose choice indices are 0. -/
def constRng (q : ℚ) : Rng :=
  { kick_punch := fun _ => q
    hihat_skip := fun _ => q
    lead_skip := fun _ => q
    melody_gate := q
    melody_steps := 0
    melody_skip := fun _ => q
    melody_voice := fun _ => 0
    arp_gate := q
    arp_skip := fun _ => q }

/-- The 4-note bass pattern `[36, 38, 41, 43]` of the spec's end-to-end
scenario, packaged as a `Pattern`. -/
def demoBassPattern : Pattern :=
  { notes := [36, 38, 41, 43]
    velocities := [100, 100, 100, 100]
    source := "demo"
    track := "demo"
    bpm := 128
    avg_note := 79/2 }

/-! ## Helper lemmas -/

lemma overlay_length (base clip : List Int) (p : Int) :
    (overlay base clip p).length = base.length := by
  simp [overlay]

lemma foldl_overlay_length (ops : List (List Int × Int)) (b : List Int) :
    (ops.foldl (fun bar cp => overlay bar cp.1 cp.2) b).length = b.length := by
  induction ops generalizing b with
  | nil => rfl
  | cons cp t ih => rw [List.foldl_cons, ih, overlay_length]

lemma generate_bar_length (env : SynthEnv) (bpm : ℚ) (st : MixerState) (bar_num : Nat)
    (r : Rng) : (generate_bar env bpm st bar_num r).1.length = bar_duration_ms bpm := by
  rw [generate_bar, foldl_overlay_length]
  simp [silent]

lemma normalize_length (scale : ℚ) (b : List Int) :
    (normalize scale b).length = b.length := by
  simp only [normalize, List.length_map]

lemma bar_duration_ms_127 : bar_duration_ms 127 = 1889 := by
  have h : Int.floor (bar_duration (127 : ℚ)) = 1889 := by
    norm_num [bar_duration, beat_duration, Int.floor_eq_iff]
  rw [bar_duration_ms, h]
  rfl

lemma spec_bar_len_ms_127 : spec_bar_len_ms 127 = 1890 := by
  norm_num [spec_bar_len_ms, bar_duration, beat_duration, round_eq, Int.floor_eq_iff]

lemma current_section_change_none (st : MixerState) :
    (change_section st none).current_section = nextSectionAuto st.current_section := rfl

lemma autoSections_succ (n : Nat) :
    autoSections (n + 1) = change_section (autoSections n) none := by
  simp [autoSections, Function.iterate_succ_apply']

lemma nextSectionAuto_verse : nextSectionAuto MusicSection.verse = MusicSection.chorus := by
  decide

lemma nextSectionAuto_chorus : nextSectionAuto MusicSection.chorus = MusicSection.verse := by
  decide

lemma autoSections_cycle (n : Nat) :
    (autoSections (n + 1)).current_section =
      if n % 2 = 0 then MusicSection.chorus else MusicSection.verse := by
  induction n with
  | zero => decide
  | succ m ih =>
    rw [autoSections_succ, current_section_change_none, ih]
    by_cases h : m % 2 = 0
    · have h1 : (m + 1) % 2 = 1 := by omega
      simp [h, h1, nextSectionAuto_chorus]
    · have h1 : (m + 1) % 2 = 0 := by omega
      simp [h, h1, nextSectionAuto_verse]

lemma length_pos_q (notes : List NoteEvent) (hne : notes ≠ []) : (0:ℚ) < notes.length := by
  have h : 0 < notes.length := List.length_pos.mpr hne
  exact_mod_cast h

lemma avg_note_lt_45 (notes : List NoteEvent) (hne : notes ≠ [])
    (h : ∀ n ∈ notes, n.note < 45) : avg_note notes < 45 := by
  rw [avg_note, div_lt_iff₀ (length_pos_q notes hne)]
  have hb : ∀ x ∈ notes.map (fun n => ((n.note : ℚ))), x ≤ 44 := by
    intro x hx
    simp only [List.mem_map] at hx
    obtain ⟨n, hn, rfl⟩ := hx
    have h45 := h n hn
    have h44 : n.note ≤ 44 := by omega
    exact_mod_cast h44
  calc (notes.map (fun n => ((n.note : ℚ)))).sum
      ≤ (notes.map (fun n => ((n.note : ℚ)))).length • (44:ℚ) :=
        List.sum_le_card_nsmul _ _ hb
    _ = 44 * notes.length := by
        simp only [List.length_map, nsmul_eq_mul]
        ring
    _ < 45 * notes.length :=
        mul_lt_mul_of_pos_right (by norm_num) (length_pos_q notes hne)

lemma filterMap_some_eq_map (l : List α) (f : α → β) :
    l.filterMap (fun a => some (f a)) = l.map f := by
  rw [← List.filterMap_eq_map]
  rfl

lemma hihat_placed_one (s : Nat) : hihat_placed (constRng 1) s = true := by
  simp only [hihat_placed, constRng]
  norm_num

lemma hihat_placed_half (s : Nat) : hihat_placed (constRng (1/2)) s = true := by
  simp only [hihat_placed, constRng]
  norm_num

/-- A shared name string for concrete instantiations. -/
def demoSource : String := "demo"

lemma getElem?_overlay (base clip : List Int) (p : Int) (i : Nat) :
    (overlay base clip p)[i]? = (base[i]?).map fun s =>
      if p.toNat ≤ i ∧ i < p.toNat + clip.length then s + clip.getD (i - p.toNat) 0
      else s := by
  simp [overlay, List.getElem?_mapIdx]

lemma choiceAt_mem {l : List α} {k : Nat} {a : α} (h : choiceAt l k = some a) : a ∈ l :=
  List.get?_mem h

/-- The zero draw record, for concrete instantiations. -/
def zeroDraws : ChoiceDraws := ⟨0, 0, 0, 0, 0, 0, 0⟩

/-- A pattern library with every category empty. -/
def emptyLib : PatternLibrary := ⟨[], [], [], [], []⟩

lemma pipeStep_inv {s t : PipeState} (h : PipeStep s t)
    (hs : s.enqueued = List.range s.bar_counter ∧ s.buffered.IsSuffix s.enqueued) :
    t.enqueued = List.range t.bar_counter ∧ t.buffered.IsSuffix t.enqueued := by
  obtain ⟨h1, h2⟩ := hs
  cases h with
  | put_ok hlt =>
    refine ⟨by rw [h1, List.range_succ], ?_⟩
    obtain ⟨t0, ht⟩ := h2
    exact ⟨t0, by rw [← List.append_assoc, ht]⟩
  | put_full hge => exact ⟨h1, h2⟩
  | take i rest hb =>
    refine ⟨h1, ?_⟩
    have hsub : rest.IsSuffix s.buffered := ⟨[i], by rw [hb]; rfl⟩
    exact hsub.trans h2

lemma reachable_pipe_inv (s : PipeState)
    (h : Relation.ReflTransGen PipeStep initPipe s) :
    s.enqueued = List.range s.bar_counter ∧ s.buffered.IsSuffix s.enqueued := by
  induction h with
  | refl => exact ⟨rfl, ⟨[], rfl⟩⟩
  | tail hsteps hstep ih => exact pipeStep_inv hstep ih

/-- 32 events on note 50: the stored 32-note prefix of both C10 inputs. -/
def prefixNotesA : List NoteEvent := List.replicate 32 ⟨50, 64, 0⟩

/-- The same 32 events followed by 100 low (note 10) events. -/
def prefixNotesB : List NoteEvent := prefixNotesA ++ List.replicate 100 ⟨10, 64, 0⟩

lemma getLast?_replicate_succ (n : Nat) (a : α) :
    (List.replicate (n + 1) a).getLast? = some a := by
  induction n with
  | zero => rfl
  | succ m ih =>
    rw [List.replicate_succ, List.getLast?_cons, ih]
    simp

lemma avg_note_A : avg_note prefixNotesA = 50 := by
  rw [avg_note, prefixNotesA]
  rw [List.map_replicate, List.sum_replicate, List.length_replicate]
  norm_num

lemma density_A : note_density prefixNotesA = 32 := by
  rw [note_density, prefixNotesA]
  rw [show (32 : Nat) = 31 + 1 from rfl, getLast?_replicate_succ, List.length_replicate]
  norm_num

lemma A_ne_nil : prefixNotesA ≠ [] := by
  rw [prefixNotesA]
  simp

lemma avg_note_B : avg_note prefixNotesB = 650 / 33 := by
  rw [avg_note, prefixNotesB, prefixNotesA]
  rw [List.map_append, List.sum_append, List.map_replicate, List.map_replicate,
    List.sum_replicate, List.sum_replicate, List.length_append, List.length_replicate,
    List.length_replicate]
  norm_num

lemma B_ne_nil : prefixNotesB ≠ [] := by
  rw [prefixNotesB, prefixNotesA]
  simp

lemma take_B : prefixNotesB.take 32 = prefixNotesA := by
  rw [prefixNotesB, show (32 : Nat) = prefixNotesA.length from by rw [prefixNotesA]; simp]
  exact List.take_left prefixNotesA _

lemma take_A : prefixNotesA.take 32 = prefixNotesA := by
  rw [List.take_of_length_le]
  rw [prefixNotesA]
  simp

lemma cat_A : categorize_pattern prefixNotesA demoSource demoSource 120 =
    some (Category.arpeggios, mkPattern prefixNotesA demoSource demoSource 120) := by
  simp only [categorize_pattern, if_neg A_ne_nil]
  rw [if_neg (by rw [avg_note_A]; norm_num), if_pos (by rw [density_A]; norm_num)]

lemma cat_B : categorize_pattern prefixNotesB demoSource demoSource 120 =
    some (Category.bass, mkPattern prefixNotesB demoSource demoSource 120) := by
  simp only [categorize_pattern, if_neg B_ne_nil]
  rw [if_pos (by rw [avg_note_B]; norm_num)]

/-! ## Claims -/

/-- Claim C1 (what the code actually does at the claimed scenario): starting
from section `intro`, the first no-argument `change_section()` call
transitions to `chorus` (the claim says `verse`), and repeated no-argument
calls alternate `chorus`, `verse`, `chorus`, `verse`, ... — `breakdown` is
never reached (`list.index` always returns the first occurrence in the
duplicated section list, so the position in the intended 6-entry cycle is
lost), while `intro` is indeed never re-entered. -/
theorem claim_C1_section_cycle_code_behavior :
    (change_section initialMixerState none).current_section = MusicSection.chorus ∧
    (∀ n, (autoSections (n + 1)).current_section =
        if n % 2 = 0 then MusicSection.chorus else MusicSection.verse) ∧
    (∀ n, (autoSections (n + 1)).current_section ≠ MusicSection.breakdown) ∧
    (∀ n, (autoSections (n + 1)).current_section ≠ MusicSection.intro) := by
  refine ⟨by decide, autoSections_cycle, fun n => ?_, fun n => ?_⟩
  · rw [autoSections_cycle]
    by_cases h : n % 2 = 0 <;> simp [h]
  · rw [autoSections_cycle]
    by_cases h : n % 2 = 0 <;> simp [h]

/-- Claim C2 (amended): for every bar index, mixer state, random source and
synthesis environment, the Bar returned by `generate_bar` — and the producer
thread's subsequent `bar.normalize(headroom=1.5)` of it — has length exactly
`int(60000/BPM*4)` ms (truncation, not `round`): no overlay placed into the
bar extends or shortens it. -/
theorem claim_C2_bar_length_amended (env : SynthEnv) (bpm : ℚ) (st : MixerState)
    (bar_num : Nat) (r : Rng) (scale : ℚ) :
    (generate_bar env bpm st bar_num r).1.length = bar_duration_ms bpm ∧
    (normalize scale (generate_bar env bpm st bar_num r).1).length = bar_duration_ms bpm := by
  refine ⟨generate_bar_length env bpm st bar_num r, ?_⟩
  rw [normalize_length, generate_bar_length]

/-- Claim C2 counterexample: at BPM 127 the configured bar duration
`int(60000/127*4)` is 1889 ms, while `round(60000/127*4)` is 1890 ms, so the
bar produced by `generate_bar` does NOT have length `round(60000/BPM*4)`. -/
theorem claim_C2_bar_length_counterexample :
    (generate_bar trivEnv 127 initialMixerState 0 (constRng 0)).1.length = 1889 ∧
    spec_bar_len_ms 127 = 1890 ∧
    ((generate_bar trivEnv 127 initialMixerState 0 (constRng 0)).1.length : ℤ) ≠
      spec_bar_len_ms 127 := by
  have h := generate_bar_length trivEnv 127 initialMixerState 0 (constRng 0)
  rw [bar_duration_ms_127] at h
  refine ⟨h, spec_bar_len_ms_127, ?_⟩
  rw [h, spec_bar_len_ms_127]
  decide

/-- Claim C4: for every active bass pattern and bar, the bass note placed on
beat `b` (b < 4) is the pattern note at index
`(bar_index*4 + b + variation_offset) mod pattern_length`; with the 4-note
pattern `[36, 38, 41, 43]`, bar 0 selects indices 0,1,2,3 and bar 1 selects
`(4..7) mod 4 = 0,1,2,3`, i.e. both bars play `[36, 38, 41, 43]`. -/
theorem claim_C4_bass_note_indexing :
    (∀ (p : Pattern) (bar_num beat : Nat), beat < 4 →
      (bassSelectedNotes p bar_num).getD beat 0 =
        p.notes.getD ((bar_num * 4 + beat + variation_offset bar_num) % p.notes.length) 0) ∧
    bassSelectedNotes demoBassPattern 0 = [36, 38, 41, 43] ∧
    bassSelectedNotes demoBassPattern 1 = [36, 38, 41, 43] ∧
    (List.range 4).map (fun b => bass_note_idx 0 b 4) = [0, 1, 2, 3] ∧
    (List.range 4).map (fun b => bass_note_idx 1 b 4) = [0, 1, 2, 3] := by
  refine ⟨fun p bar_num beat h => ?_, by decide, by decide, by decide, by decide⟩
  simp [bassSelectedNotes, List.getD, List.getElem?_map, List.getElem?_range h,
    bass_note_idx]

/-- Witness for C4: the indexing formula instantiated at bar 5, beat 2 of
the demo pattern. -/
theorem claim_C4_bass_note_indexing_witness :
    (bassSelectedNotes demoBassPattern 5).getD 2 0 =
      demoBassPattern.notes.getD
        ((5 * 4 + 2 + variation_offset 5) % demoBassPattern.notes.length) 0 :=
  claim_C4_bass_note_indexing.1 demoBassPattern 5 2 (by decide)

/-- Claim C3: for every non-empty note list, `categorize_pattern` assigns the
pattern to exactly one category by the stated priority rule; in particular a
pattern whose notes are all `< 45` lands only in `bass`, and a pattern with
note-range `< 12`, density `< 2` and average `≥ 45` lands in `pads`. -/
theorem claim_C3_categorize_rule (notes : List NoteEvent) (src trk : String) (bpm : ℚ)
    (hne : notes ≠ []) :
    (∃! cp, categorize_pattern notes src trk bpm = some cp) ∧
    ((∀ n ∈ notes, n.note < 45) →
      categorize_pattern notes src trk bpm =
        some (Category.bass, mkPattern notes src trk bpm)) ∧
    (45 ≤ avg_note notes → note_range notes < 12 → note_density notes < 2 →
      categorize_pattern notes src trk bpm =
        some (Category.pads, mkPattern notes src trk bpm)) := by
  refine ⟨?_, ?_, ?_⟩
  · simp only [categorize_pattern, if_neg hne]
    split_ifs <;>
      exact ⟨_, rfl, fun y hy => by injection hy with h2; exact h2.symm⟩
  · intro h
    simp only [categorize_pattern, if_neg hne]
    rw [if_pos (avg_note_lt_45 notes hne h)]
  · intro h1 h2 h3
    simp only [categorize_pattern, if_neg hne]
    rw [if_neg (not_lt.mpr h1), if_neg (not_lt.mpr (h3.trans (by norm_num)).le),
      if_pos ⟨h2, h3⟩]

/-- Witness for C3: a single low note (30 < 45) is categorized as `bass`. -/
theorem claim_C3_categorize_rule_witness :
    categorize_pattern [⟨30, 100, 0⟩] demoSource demoSource 128 =
      some (Category.bass, mkPattern [⟨30, 100, 0⟩] demoSource demoSource 128) :=
  (claim_C3_categorize_rule [⟨30, 100, 0⟩] demoSource demoSource 128 (by decide)).2.1
    (by decide)

/-- Claim C5 (amended): each of the 16 hi-hat grid steps is independently
skipped — the decision for step `s` depends only on that step's own draw and
places the hi-hat iff the draw exceeds 0.1 — but the open/closed choice of a
placed hi-hat is NOT a random draw: it is the fixed function of the step
index `closed = (s % 4 ≠ 3)`, so the hi-hat layer depends on the random
source only through the per-step skip decisions. -/
theorem claim_C5_hihat_amended :
    (∀ (r₁ r₂ : Rng) (s : Nat), r₁.hihat_skip s = r₂.hihat_skip s →
      hihat_placed r₁ s = hihat_placed r₂ s) ∧
    (∀ (env : SynthEnv) (bpm : ℚ) (r₁ r₂ : Rng),
      (∀ s, hihat_placed r₁ s = hihat_placed r₂ s) →
      hihatPlacements env bpm r₁ = hihatPlacements env bpm r₂) ∧
    (∀ (r : Rng) (s : Nat), hihat_placed r s = true ↔ r.hihat_skip s > 1/10) ∧
    (∀ s, hihat_closed s = false ↔ s % 4 = 3) := by
  refine ⟨fun r₁ r₂ s h => ?_, fun env bpm r₁ r₂ h => ?_, fun r s => ?_, fun s => ?_⟩
  · simp [hihat_placed, h]
  · simp only [hihatPlacements]
    congr 1
    funext s
    rw [h s]
  · simp [hihat_placed]
  · simp [hihat_closed]

/-- Witness for C5 (amended): two random sources with different draw values
but the same skip decisions give identical hi-hat layers. -/
theorem claim_C5_hihat_amended_witness :
    hihatPlacements trivEnv 128 (constRng 1) = hihatPlacements trivEnv 128 (constRng (1/2)) :=
  claim_C5_hihat_amended.2.1 trivEnv 128 (constRng 1) (constRng (1/2))
    (fun s => by rw [hihat_placed_one, hihat_placed_half])

/-- Claim C5 counterexample: with an environment that renders the open/closed
flag into the clip, two random sources whose draws differ at EVERY step
produce identical hi-hat layers, and the clip sequence is the fixed function
of the step index (open exactly at steps 3, 7, 11, 15) — so the open/closed
decision is not a random draw. -/
theorem claim_C5_hihat_counterexample :
    (∀ s, (constRng (1:ℚ)).hihat_skip s ≠ (constRng (1/2)).hihat_skip s) ∧
    hihatPlacements obsEnv 128 (constRng 1) = hihatPlacements obsEnv 128 (constRng (1/2)) ∧
    (hihatPlacements obsEnv 128 (constRng 1)).map Prod.fst =
      (List.range 16).map
        (fun s => if s % 4 = 3 then gain_adjust (obsEnv.hihat false) (-2)
                  else gain_adjust (obsEnv.hihat true) (-2)) := by
  refine ⟨fun s => ?_, ?_, ?_⟩
  · simp only [constRng]
    norm_num
  · simp only [hihatPlacements, hihat_placed_one, hihat_placed_half, if_true]
  · simp only [hihatPlacements, hihat_placed_one, if_true, filterMap_some_eq_map,
      List.map_map]
    apply List.map_congr_left
    intro s hs
    by_cases h : s % 4 = 3
    · have hb : (s % 4 == 3) = true := by simpa using h
      simp [hihat_closed, hb, h]
    · have hb : (s % 4 == 3) = false := by simpa using h
      simp [hihat_closed, hb, h]

/-- Claim C6: overlay is order-independent for non-overlapping placements:
whenever the placed (truncated-to-base) sample ranges
`[p1, min(p1+|A|, |base|))` and `[p2, min(p2+|B|, |base|))` are disjoint,
overlaying A then B equals overlaying B then A. -/
theorem claim_C6_overlay_commutes (base A B : List Int) (p1 p2 : Int)
    (hd : min (p1.toNat + A.length) base.length ≤ p2.toNat ∨
          min (p2.toNat + B.length) base.length ≤ p1.toNat) :
    overlay (overlay base A p1) B p2 = overlay (overlay base B p2) A p1 := by
  apply List.ext_getElem?
  intro i
  rw [getElem?_overlay, getElem?_overlay, getElem?_overlay, getElem?_overlay,
    Option.map_map, Option.map_map]
  cases hb : base[i]? with
  | none => simp
  | some s =>
    have hi : i < base.length := by
      by_contra hlen
      rw [List.getElem?_eq_none (le_of_not_lt hlen)] at hb
      exact Option.noConfusion hb
    simp only [Option.map_some', Function.comp]
    congr 1
    split_ifs with h1 h2 h2
    · exfalso
      omega
    · omega
    · rfl
    · rfl

/-- Witness for C6: two concrete non-overlapping placements into a 10 ms
silent buffer commute. -/
theorem claim_C6_overlay_commutes_witness :
    overlay (overlay (silent 10) [1, 2] 0) [3] 5 =
      overlay (overlay (silent 10) [3] 5) [1, 2] 0 :=
  claim_C6_overlay_commutes (silent 10) [1, 2] [3] 0 5 (by decide)

/-- Claim C7: with empty pattern categories (any subset, including all),
`randomize_patterns` leaves the corresponding active patterns untouched
(never drawing from an empty option list — any chosen bass pattern comes
from a non-empty category list), each per-bar layer with an inactive pattern
is simply omitted, and `generate_bar` still returns a valid full-length
Bar. -/
theorem claim_C7_empty_category_safety (lib : PatternLibrary) (st : MixerState)
    (cb : Bool) (r : ChoiceDraws) (env : SynthEnv) (bpm : ℚ) (bar_num : Nat)
    (rng : Rng) :
    (lib.bass = [] → (randomize_patterns lib st cb r).active_bass = st.active_bass ∧
        (randomize_patterns lib st cb r).bass_effect = st.bass_effect) ∧
    (lib.melody = [] → (randomize_patterns lib st cb r).active_melody = st.active_melody ∧
        (randomize_patterns lib st cb r).active_lead = st.active_lead) ∧
    (lib.pads = [] → (randomize_patterns lib st cb r).active_pad = st.active_pad) ∧
    (lib.arpeggios = [] → (randomize_patterns lib st cb r).active_arp = st.active_arp) ∧
    (∀ p, (randomize_patterns lib st cb r).active_bass = some p →
        st.active_bass = some p ∨ p ∈ lib.bass) ∧
    (st.active_bass = none → bassPlacements env bpm st bar_num = []) ∧
    (st.active_melody = none → melodyPlacements env bpm st bar_num rng = []) ∧
    (st.active_pad = none → padPlacements env bpm st bar_num = []) ∧
    (st.active_arp = none → arpPlacements env bpm st bar_num rng = []) ∧
    (st.active_lead = none → leadPlacements env bpm st bar_num rng = []) ∧
    (generate_bar env bpm st bar_num rng).1.length = bar_duration_ms bpm := by
  refine ⟨?_, ?_, ?_, ?_, ?_, ?_, ?_, ?_, ?_, ?_,
    generate_bar_length env bpm st bar_num rng⟩
  · intro h
    simp only [randomize_patterns]
    split_ifs <;> simp_all
  · intro h
    simp only [randomize_patterns]
    split_ifs <;> simp_all
  · intro h
    simp only [randomize_patterns]
    split_ifs <;> simp_all
  · intro h
    simp only [randomize_patterns]
    split_ifs <;> simp_all
  · simp only [randomize_patterns]
    split_ifs <;> intro p hp <;>
      first
        | exact Or.inl hp
        | exact Or.inr (choiceAt_mem hp)
  · intro h
    simp [bassPlacements, h]
  · intro h
    simp [melodyPlacements, h]
  · intro h
    simp [padPlacements, h]
  · intro h
    simp [arpPlacements, h]
  · intro h
    simp [leadPlacements, h]

/-- Witness for C7: with the all-empty library and the fresh mixer state,
randomization keeps every active pattern `None`, the bass layer is omitted,
and the generated bar still has full length. -/
theorem claim_C7_empty_category_safety_witness :
    (randomize_patterns emptyLib initialMixerState true zeroDraws).active_bass =
        initialMixerState.active_bass ∧
    bassPlacements trivEnv 128 initialMixerState 0 = [] ∧
    (generate_bar trivEnv 128 initialMixerState 0 (constRng 0)).1.length =
        bar_duration_ms 128 :=
  ⟨((claim_C7_empty_category_safety emptyLib initialMixerState true zeroDraws trivEnv
      128 0 (constRng 0)).1 rfl).1,
   (claim_C7_empty_category_safety emptyLib initialMixerState true zeroDraws trivEnv
      128 0 (constRng 0)).2.2.2.2.2.1 rfl,
   (claim_C7_empty_category_safety emptyLib initialMixerState true zeroDraws trivEnv
      128 0 (constRng 0)).2.2.2.2.2.2.2.2.2.2⟩

/-- Claim C8: with the capacity-8 queue, every reachable pipeline state has
enqueued exactly the gap-free index sequence `0, 1, ..., bar_counter - 1`
(so a bar index is never skipped past without being enqueued, and the queue
holds a suffix of that history); a full queue makes the producer's put a
no-op retry of the same index; concretely, 10 producer attempts with no
draining succeed exactly 8 times (attempts 9 and 10 change nothing), and
after the consumer drains 3 bars the producer's next attempt succeeds with
index 8, keeping the enqueued sequence gap-free. -/
theorem claim_C8_pipeline_backpressure :
    (∀ s, Relation.ReflTransGen PipeStep initPipe s →
      s.enqueued = List.range s.bar_counter ∧ s.buffered.IsSuffix s.enqueued) ∧
    (∀ s, PipeStep s (produceAttempt s)) ∧
    (∀ s, s.buffered ≠ [] → PipeStep s (consumeOne s)) ∧
    produceAttempt^[10] initPipe =
      { buffered := List.range 8, bar_counter := 8, enqueued := List.range 8 } ∧
    produceAttempt^[9] initPipe = produceAttempt^[8] initPipe ∧
    produceAttempt^[10] initPipe = produceAttempt^[8] initPipe ∧
    produceAttempt (consumeOne^[3] (produceAttempt^[10] initPipe)) =
      { buffered := [3, 4, 5, 6, 7, 8], bar_counter := 9, enqueued := List.range 9 } := by
  refine ⟨reachable_pipe_inv, fun s => ?_, fun s h => ?_, by decide, by decide, by decide,
    by decide⟩
  · rw [produceAttempt]
    split_ifs with hc
    · exact PipeStep.put_ok s hc
    · exact PipeStep.put_full s (le_of_not_lt hc)
  · match hb : s.buffered with
    | [] => exact absurd hb h
    | i :: rest =>
      have hstep := PipeStep.take s i rest hb
      rw [consumeOne, hb]
      exact hstep

/-- Witness for C8: the invariant instantiated at the initial state, and a
legal consumer step on a non-empty queue. -/
theorem claim_C8_pipeline_backpressure_witness :
    (initPipe.enqueued = List.range initPipe.bar_counter ∧
      initPipe.buffered.IsSuffix initPipe.enqueued) ∧
    PipeStep (produceAttempt initPipe) (consumeOne (produceAttempt initPipe)) :=
  ⟨claim_C8_pipeline_backpressure.1 initPipe Relation.ReflTransGen.refl,
   claim_C8_pipeline_backpressure.2.2.1 (produceAttempt initPipe) (by decide)⟩

/-- Claim C10: every stored Pattern keeps at most the first 32 notes and
velocities of its source track while its stored `avg_note` — the value the
categorization rule uses — averages over ALL the track's notes; two tracks
with identical first-32 notes and velocities can therefore land in different
categories, so the stored note list does not determine the category. -/
theorem claim_C10_pattern_truncation :
    (∀ (notes : List NoteEvent) (src trk : String) (bpm : ℚ),
      (mkPattern notes src trk bpm).notes = (notes.take 32).map (fun n => n.note) ∧
      (mkPattern notes src trk bpm).velocities =
        (notes.take 32).map (fun n => n.velocity) ∧
      (mkPattern notes src trk bpm).notes.length ≤ 32 ∧
      (mkPattern notes src trk bpm).avg_note = avg_note notes) ∧
    categorize_pattern prefixNotesA demoSource demoSource 120 =
      some (Category.arpeggios, mkPattern prefixNotesA demoSource demoSource 120) ∧
    categorize_pattern prefixNotesB demoSource demoSource 120 =
      some (Category.bass, mkPattern prefixNotesB demoSource demoSource 120) ∧
    (mkPattern prefixNotesA demoSource demoSource 120).notes =
      (mkPattern prefixNotesB demoSource demoSource 120).notes ∧
    (mkPattern prefixNotesA demoSource demoSource 120).velocities =
      (mkPattern prefixNotesB demoSource demoSource 120).velocities ∧
    Category.arpeggios ≠ Category.bass := by
  refine ⟨fun notes src trk bpm => ⟨rfl, rfl, ?_, rfl⟩, cat_A, cat_B, ?_, ?_, by decide⟩
  · simp [mkPattern, List.length_take]
  · simp only [mkPattern, take_A, take_B]
  · simp only [mkPattern, take_A, take_B]

/-- Claim C9: `generate_bar` mutates only `section_bar_counter`, incrementing
it by exactly 1; every other mixer-state field — the five active patterns,
the two selected effects, the current section and the bass variation
counters — is unchanged. -/
theorem claim_C9_generate_bar_frame (env : SynthEnv) (bpm : ℚ) (st : MixerState)
    (bar_num : Nat) (r : Rng) :
    (generate_bar env bpm st bar_num r).2.section_bar_counter =
        st.section_bar_counter + 1 ∧
    (generate_bar env bpm st bar_num r).2.active_bass = st.active_bass ∧
    (generate_bar env bpm st bar_num r).2.active_melody = st.active_melody ∧
    (generate_bar env bpm st bar_num r).2.active_pad = st.active_pad ∧
    (generate_bar env bpm st bar_num r).2.active_arp = st.active_arp ∧
    (generate_bar env bpm st bar_num r).2.active_lead = st.active_lead ∧
    (generate_bar env bpm st bar_num r).2.bass_effect = st.bass_effect ∧
    (generate_bar env bpm st bar_num r).2.melody_effect = st.melody_effect ∧
    (generate_bar env bpm st bar_num r).2.current_section = st.current_section ∧
    (generate_bar env bpm st bar_num r).2.bass_pattern_index = st.bass_pattern_index ∧
    (generate_bar env bpm st bar_num r).2.bass_variation_counter =
        st.bass_variation_counter :=
  ⟨rfl, rfl, rfl, rfl, rfl, rfl, rfl, rfl, rfl, rfl, rfl⟩

end SMInfinite
